/-
  Verification of the lgi marshaling/invocation engine (src/lgi.c, src/core.c).

  Shallow embedding conventions:
  * Lua numbers (lua_Number, a C double) are modeled as rationals; every
    conversion a theorem relies on is exercised only at inputs where the
    C double arithmetic is exact.
  * Machine integers are modeled as Int with explicit two's-complement
    wrapping applied exactly where the C code casts.
  * The GArgument union stores the member last written; reading a member
    that was never written with that representation is type punning in C
    and is modeled by a fixed default value.
  * Lua's C API stack choreography is replaced by explicit argument and
    result lists; luaL_error / lua_error (longjmp) become an Except error
    channel; reaching undefined behavior (dereferencing NULL) is modeled
    by the distinguished error value LErr.ub.
-/
import Mathlib

/-- GITypeTag, the closed tag enumeration of girepository (the INTERFACE
tag is represented structurally by the TypeInfo.iface constructor). -/
inductive GITypeTag where
  | void | boolean
  | int8 | uint8 | int16 | uint16 | int32 | uint32 | int64 | uint64
  | short | ushort | int | uint | long | ulong | ssize | size
  | float | double | timeT | gtype | utf8 | filename
  | array | glist | gslist | ghash | gerror
deriving DecidableEq, Repr

/-- GIDirection of one argument. -/
inductive GIDirection where
  | dirIn | dirOut | dirInout
deriving DecidableEq, Repr

/-- A dynamic-side (Lua) value. -/
inductive LuaValue where
  | nil : LuaValue
  | boolean : Bool → LuaValue
  | number : ℚ → LuaValue
  | str : String → LuaValue
  | structRef : ℕ → LuaValue
  | functionRef : ℕ → LuaValue
deriving DecidableEq, Repr

/-- One GArgument union cell: the member most recently written. -/
inductive GArgument where
  | int : ℤ → GArgument
  | flt : ℚ → GArgument
  | ptr : Option ℕ → GArgument
  | str : String → GArgument
deriving DecidableEq, Repr

/-- Errors raised through the Lua error mechanism (longjmp), plus the
distinguished marker ub for runs that reach undefined behavior. -/
inductive LErr where
  | noField : String → String → LErr
  | fieldPerm : String → String → Bool → LErr
  | typeErr : ℕ → LErr
  | throwErr : String → LErr
  | luaErr : String → LErr
  | ub : LErr
deriving DecidableEq, Repr

/-- Unsigned two's-complement wrap to w bits. -/
def wrapU (w : ℕ) (z : ℤ) : ℤ := z % (2 ^ w)

/-- Signed two's-complement wrap to w bits. -/
def wrapS (w : ℕ) (z : ℤ) : ℤ := (z + 2 ^ (w - 1)) % 2 ^ w - 2 ^ (w - 1)

/-- C truncation toward zero of a rational (the double → integer cast);
Int.div truncates toward zero. -/
def ratTrunc (q : ℚ) : ℤ := Int.tdiv q.num (q.den : ℤ)

/-- Reading an integral member of the union. -/
def readInt : GArgument → ℤ
  | .int z => z
  | _ => 0

/-- Reading the v_float / v_double member of the union. -/
def readFlt : GArgument → ℚ
  | .flt q => q
  | _ => 0

/-- Reading the v_pointer member of the union. -/
def readPtr : GArgument → Option ℕ
  | .ptr a => a
  | _ => none

mutual

/-- GITypeInfo: either a plain (non-interface) tag, or the INTERFACE tag
together with the interfaced base info. -/
inductive TypeInfo where
  | plain : GITypeTag → TypeInfo
  | iface : BaseInfo → TypeInfo

/-- GIBaseInfo as queried by the engine: the kind together with the
metadata the code reads for that kind.  objectInfo / ifaceInfo carry
their method tables as name ↦ info-pointer pairs. -/
inductive BaseInfo where
  | enumInfo : GITypeTag → BaseInfo
  | structInfo : StructBlueprint → BaseInfo
  | funcInfo : FunctionBlueprint → BaseInfo
  | constInfo : TypeInfo → GArgument → BaseInfo
  | objectInfo : List (String × ℕ) → BaseInfo
  | ifaceInfo : List (String × ℕ) → BaseInfo
  | otherInfo : BaseInfo

/-- GIStructInfo: namespace, name, byte size, fields, methods. -/
inductive StructBlueprint where
  | mk : String → String → ℕ → List FieldBlueprint → List (String × ℕ) → StructBlueprint

/-- GIFieldInfo: name, readable flag, writable flag, byte offset, type. -/
inductive FieldBlueprint where
  | mk : String → Bool → Bool → ℕ → TypeInfo → FieldBlueprint

/-- GIFunctionInfo together with its prepared invoker: method flag,
constructor flag, throws flag, arguments, return type, native entry
address, and whether g_function_info_prep_invoker succeeds. -/
inductive FunctionBlueprint where
  | mk : Bool → Bool → Bool → List ArgBlueprint → TypeInfo → ℕ → Bool → FunctionBlueprint

/-- GIArgInfo: direction, optional flag, may-be-null flag,
caller-allocates flag, type. -/
inductive ArgBlueprint where
  | mk : GIDirection → Bool → Bool → Bool → TypeInfo → ArgBlueprint

end

def StructBlueprint.nsp : StructBlueprint → String
  | .mk n _ _ _ _ => n

def StructBlueprint.sname : StructBlueprint → String
  | .mk _ n _ _ _ => n

def StructBlueprint.size : StructBlueprint → ℕ
  | .mk _ _ s _ _ => s

def StructBlueprint.fields : StructBlueprint → List FieldBlueprint
  | .mk _ _ _ fs _ => fs

def StructBlueprint.smethods : StructBlueprint → List (String × ℕ)
  | .mk _ _ _ _ ms => ms

def FieldBlueprint.fname : FieldBlueprint → String
  | .mk n _ _ _ _ => n

def FieldBlueprint.freadable : FieldBlueprint → Bool
  | .mk _ r _ _ _ => r

def FieldBlueprint.fwritable : FieldBlueprint → Bool
  | .mk _ _ w _ _ => w

def FieldBlueprint.foffset : FieldBlueprint → ℕ
  | .mk _ _ _ o _ => o

def FieldBlueprint.ftype : FieldBlueprint → TypeInfo
  | .mk _ _ _ _ t => t

def FunctionBlueprint.isMethod : FunctionBlueprint → Bool
  | .mk m _ _ _ _ _ _ => m

def FunctionBlueprint.isConstructor : FunctionBlueprint → Bool
  | .mk _ c _ _ _ _ _ => c

def FunctionBlueprint.fthrows : FunctionBlueprint → Bool
  | .mk _ _ t _ _ _ _ => t

def FunctionBlueprint.fargs : FunctionBlueprint → List ArgBlueprint
  | .mk _ _ _ a _ _ _ => a

def FunctionBlueprint.fret : FunctionBlueprint → TypeInfo
  | .mk _ _ _ _ r _ _ => r

def FunctionBlueprint.nativeAddress : FunctionBlueprint → ℕ
  | .mk _ _ _ _ _ a _ => a

def FunctionBlueprint.prepOk : FunctionBlueprint → Bool
  | .mk _ _ _ _ _ _ p => p

def ArgBlueprint.adir : ArgBlueprint → GIDirection
  | .mk d _ _ _ _ => d

def ArgBlueprint.aOptional : ArgBlueprint → Bool
  | .mk _ o _ _ _ => o

def ArgBlueprint.aMayBeNull : ArgBlueprint → Bool
  | .mk _ _ n _ _ => n

def ArgBlueprint.aCallerAllocates : ArgBlueprint → Bool
  | .mk _ _ _ c _ => c

def ArgBlueprint.aty : ArgBlueprint → TypeInfo
  | .mk _ _ _ _ t => t

/-- A userdata object: either a struct wrapper (ud_struct: typeinfo plus
wrapped address) or a function wrapper (ud_function). -/
inductive UD where
  | structUd : StructBlueprint → Option ℕ → UD
  | funUd : FunctionBlueprint → UD

/-- The engine-visible Lua state: the weak-value identity cache
(address ↦ userdata id), the userdata heap, fresh-id and fresh-address
counters, and native memory as a map from slot address to GArgument. -/
structure LuaState where
  cache : List (ℕ × ℕ)
  uds : List (ℕ × UD)
  nextId : ℕ
  nextAddr : ℕ
  mem : ℕ → GArgument

def memUpdate (m : ℕ → GArgument) (a : ℕ) (g : GArgument) : ℕ → GArgument :=
  fun x => if x = a then g else m x

def lookupUd (st : LuaState) (sid : ℕ) : Option UD :=
  (st.uds.find? (fun p => p.1 = sid)).map (fun p => p.2)

/-- lua_isnoneornil at the examined index. -/
def isnoneornil : LuaValue → Bool
  | .nil => true
  | _ => false

/-- lua_toboolean: nil and false are false, everything else is true. -/
def toboolean : LuaValue → Bool
  | .nil => false
  | .boolean b => b
  | _ => true

/-- luaL_checkinteger: a number is cast to lua_Integer (truncation toward
zero); other values raise a Lua argument error.  (Lua's coercion of
numeric strings is outside the inputs used here.) -/
def checkinteger (idx : ℕ) : LuaValue → Except LErr ℤ
  | .number q => .ok (ratTrunc q)
  | _ => .error (.typeErr idx)

/-- luaL_checknumber. -/
def checknumber (idx : ℕ) : LuaValue → Except LErr ℚ
  | .number q => .ok q
  | _ => .error (.typeErr idx)

/-- luaL_checkstring. -/
def checkstring (idx : ℕ) : LuaValue → Except LErr String
  | .str s => .ok s
  | _ => .error (.typeErr idx)

/-- Looks an object up in the weak-value cache (lgi_get_cached).  A NULL
lightuserdata key is never inserted (lgi_set_cached is only reached with
non-null native addresses), so a none key always misses. -/
def lgi_get_cached (st : LuaState) (obj : Option ℕ) : Option ℕ :=
  match obj with
  | some a => (st.cache.find? (fun p => p.1 = a)).map (fun p => p.2)
  | none => none

/-- Stores object into the cache (lgi_set_cached). -/
def lgi_set_cached (st : LuaState) (obj : ℕ) (wid : ℕ) : LuaState :=
  { st with cache := (obj, wid) :: st.cache }

/-- lgi_simple_val_to_lua: pushes a simple (non-interface) value, or
nothing when the tag is not handled.  The per-tag wrap models reading the
union member of that width; FLOAT and DOUBLE are pushed through
lua_pushinteger exactly as the source does, truncating the value. -/
def lgi_simple_val_to_lua (t : GITypeTag) (g : GArgument) : Option LuaValue :=
  match t with
  | .boolean => some (.boolean (readInt g != 0))
  | .int8 => some (.number ((wrapS 8 (readInt g) : ℤ) : ℚ))
  | .uint8 => some (.number ((wrapU 8 (readInt g) : ℤ) : ℚ))
  | .int16 => some (.number ((wrapS 16 (readInt g) : ℤ) : ℚ))
  | .uint16 => some (.number ((wrapU 16 (readInt g) : ℤ) : ℚ))
  | .int32 => some (.number ((wrapS 32 (readInt g) : ℤ) : ℚ))
  | .uint32 => some (.number ((wrapU 32 (readInt g) : ℤ) : ℚ))
  | .int64 => some (.number ((wrapS 64 (readInt g) : ℤ) : ℚ))
  | .uint64 => some (.number ((wrapU 64 (readInt g) : ℤ) : ℚ))
  | .short => some (.number ((wrapS 16 (readInt g) : ℤ) : ℚ))
  | .ushort => some (.number ((wrapU 16 (readInt g) : ℤ) : ℚ))
  | .int => some (.number ((wrapS 32 (readInt g) : ℤ) : ℚ))
  | .uint => some (.number ((wrapU 32 (readInt g) : ℤ) : ℚ))
  | .long => some (.number ((wrapS 64 (readInt g) : ℤ) : ℚ))
  | .ulong => some (.number ((wrapS 64 (readInt g) : ℤ) : ℚ))
  | .ssize => some (.number ((wrapS 64 (readInt g) : ℤ) : ℚ))
  | .size => some (.number ((wrapS 64 (readInt g) : ℤ) : ℚ))
  | .gtype => some (.number ((wrapS 64 (readInt g) : ℤ) : ℚ))
  | .float => some (.number ((wrapS 64 (ratTrunc (readFlt g)) : ℤ) : ℚ))
  | .double => some (.number ((wrapS 64 (ratTrunc (readFlt g)) : ℤ) : ℚ))
  | .utf8 =>
      some (match g with
            | .str s => .str s
            | _ => .nil)
  | .filename =>
      some (match g with
            | .str s => .str s
            | _ => .nil)
  | _ => none

/-- struct_new: wraps addr (alloc = false, addr the gpointer argument) or
allocates embedded storage of the struct's size (alloc = true, modeling a
non-NULL newaddr).  A NULL address with no allocation pushes nil.  The
cache is consulted, and the source never inserts the new wrapper into the
cache.  Returns (state, pushed values, value stored through newaddr). -/
def struct_new (st : LuaState) (sb : StructBlueprint) (addr : Option ℕ)
    (alloc : Bool) : LuaState × List LuaValue × Option ℕ :=
  if !alloc && addr.isNone then (st, [LuaValue.nil], none)
  else
    match lgi_get_cached st addr with
    | some wid => (st, [LuaValue.structRef wid], none)
    | none =>
        let wid := st.nextId
        let dataAddr := st.nextAddr
        let a : Option ℕ := if alloc then some dataAddr else addr
        let st1 : LuaState :=
          { st with uds := (wid, UD.structUd sb a) :: st.uds,
                    nextId := wid + 1,
                    nextAddr := if alloc then dataAddr + sb.size + 1 else st.nextAddr }
        (st1, [LuaValue.structRef wid], if alloc then some dataAddr else none)

/-- lgi_val_to_lua: tag-driven marshaling of one native value to the
dynamic side.  Interface tags resolve enums to their storage tag and
structs to a wrapper via struct_new; anything unhandled pushes nothing
and reports no error. -/
def lgi_val_to_lua (st : LuaState) (ti : TypeInfo) (g : GArgument) :
    LuaState × List LuaValue :=
  match ti with
  | .plain t => (st, (lgi_simple_val_to_lua t g).toList)
  | .iface ii =>
      match ii with
      | .enumInfo storage => (st, (lgi_simple_val_to_lua storage g).toList)
      | .structInfo sb =>
          let r := struct_new st sb (readPtr g) false
          (r.1, r.2.1)
      | _ => (st, [])

/-- Helper for the integral TYPE_CASE lines of lgi_val_from_lua: the
member is written as (type)((optional and noneornil) ? 0 : checkinteger),
with cast the member's width cast. -/
def fromIntTag (idx : ℕ) (v : LuaValue) (optional : Bool) (cast : ℤ → ℤ) :
    Except LErr (Option GArgument × ℕ) :=
  if optional && isnoneornil v then .ok (some (.int (cast 0)), 1)
  else
    match checkinteger idx v with
    | .error e => .error e
    | .ok i => .ok (some (.int (cast i)), 1)

/-- lgi_val_from_lua: tag-driven marshaling of one dynamic value into a
native GArgument.  Returns the written union cell (none when the tag is
unhandled and nothing is written) and the count of consumed Lua values
(0 or 1).  FLOAT and DOUBLE go through luaL_checkinteger exactly as the
source does; INT64 and UINT64 go through luaL_checknumber. -/
def lgi_val_from_lua (st : LuaState) (idx : ℕ) (v : LuaValue)
    (ti : TypeInfo) (optional : Bool) : Except LErr (Option GArgument × ℕ) :=
  match ti with
  | .plain t =>
      match t with
      | .boolean =>
          .ok (some (.int (if optional && isnoneornil v then 0
                           else if toboolean v then 1 else 0)), 1)
      | .int8 => fromIntTag idx v optional (wrapS 8)
      | .uint8 => fromIntTag idx v optional (wrapU 8)
      | .int16 => fromIntTag idx v optional (wrapS 16)
      | .uint16 => fromIntTag idx v optional (wrapU 16)
      | .int32 => fromIntTag idx v optional (wrapS 32)
      | .uint32 => fromIntTag idx v optional (wrapU 32)
      | .short => fromIntTag idx v optional (wrapS 16)
      | .ushort => fromIntTag idx v optional (wrapU 16)
      | .int => fromIntTag idx v optional (wrapS 32)
      | .uint => fromIntTag idx v optional (wrapU 32)
      | .long => fromIntTag idx v optional (wrapS 64)
      | .ulong => fromIntTag idx v optional (wrapU 64)
      | .ssize => fromIntTag idx v optional (wrapS 64)
      | .size => fromIntTag idx v optional (wrapU 64)
      | .gtype => fromIntTag idx v optional (wrapS 64)
      | .int64 =>
          if optional && isnoneornil v then .ok (some (.int 0), 1)
          else
            match checknumber idx v with
            | .error e => .error e
            | .ok q => .ok (some (.int (wrapS 64 (ratTrunc q))), 1)
      | .uint64 =>
          if optional && isnoneornil v then .ok (some (.int 0), 1)
          else
            match checknumber idx v with
            | .error e => .error e
            | .ok q => .ok (some (.int (wrapU 64 (ratTrunc q))), 1)
      | .float =>
          if optional && isnoneornil v then .ok (some (.flt 0), 1)
          else
            match checkinteger idx v with
            | .error e => .error e
            | .ok i => .ok (some (.flt (i : ℚ)), 1)
      | .double =>
          if optional && isnoneornil v then .ok (some (.flt 0), 1)
          else
            match checkinteger idx v with
            | .error e => .error e
            | .ok i => .ok (some (.flt (i : ℚ)), 1)
      | .utf8 =>
          if optional && isnoneornil v then .ok (some (.ptr none), 1)
          else
            match checkstring idx v with
            | .error e => .error e
            | .ok s => .ok (some (.str s), 1)
      | .filename =>
          if optional && isnoneornil v then .ok (some (.ptr none), 1)
          else
            match checkstring idx v with
            | .error e => .error e
            | .ok s => .ok (some (.str s), 1)
      | _ => .ok (none, 0)
  | .iface ii =>
      match ii with
      | .structInfo _sb =>
          if optional && isnoneornil v then .ok (some (.ptr none), 1)
          else
            match v with
            | .structRef sid =>
                match lookupUd st sid with
                | some (.structUd _ a) => .ok (some (.ptr a), 1)
                | _ => .error (.typeErr idx)
            | _ => .error (.typeErr idx)
      | _ => .ok (none, 0)

/-- lgi_type_get_name for a top-level entity: namespace "." name. -/
def typeName (sb : StructBlueprint) : String :=
  sb.nsp ++ "." ++ sb.sname

/-- struct_load_field: searches the declared fields for an exact name
match, raises "no '<name>'" when absent and "not readable" / "not
writable" when the required flag is missing, otherwise returns the
field's type and the member address addr+offset.  The source assigns
that member address only to its own local copy of the val parameter
(the dereferencing * is missing), so the address never reaches the
caller; both callers therefore keep their uninitialized GArgument*. -/
def struct_load_field (sb : StructBlueprint) (addr : Option ℕ)
    (name : String) (wantRead : Bool) : Except LErr (TypeInfo × ℕ) :=
  match sb.fields.find? (fun f => f.fname == name) with
  | none => .error (.noField (typeName sb) name)
  | some fi =>
      if (if wantRead then fi.freadable else fi.fwritable) = false then
        .error (.fieldPerm (typeName sb) name wantRead)
      else .ok (fi.ftype, addr.getD 0 + fi.foffset)

/-- struct_index (__index, get_field): the junk parameter is the
indeterminate initial value of the caller's uninitialized local
GArgument* val, which struct_load_field never assigns through; the
marshaled bytes are read from there, not from the field. -/
def struct_index (st : LuaState) (sid : ℕ) (name : String) (junk : ℕ) :
    Option LErr × LuaState × List LuaValue :=
  match lookupUd st sid with
  | some (.structUd sb _a) =>
      match struct_load_field sb _a name true with
      | .error e => (some e, st, [])
      | .ok (ti, _memberAddr) =>
          let r := lgi_val_to_lua st ti (st.mem junk)
          (none, r.1, r.2)
  | _ => (some (.typeErr 1), st, [])

/-- struct_newindex (__newindex, set_field): same uninitialized-pointer
situation as struct_index; a successful marshal is written at the
indeterminate junk address, and nothing is written on any error path or
when the tag is unhandled (received = 0). -/
def struct_newindex (st : LuaState) (sid : ℕ) (name : String)
    (v : LuaValue) (junk : ℕ) : Option LErr × LuaState :=
  match lookupUd st sid with
  | some (.structUd sb _a) =>
      match struct_load_field sb _a name false with
      | .error e => (some e, st)
      | .ok (ti, _memberAddr) =>
          match lgi_val_from_lua st 3 v ti false with
          | .error e => (some e, st)
          | .ok (gOpt, _received) =>
              match gOpt with
              | some g => (none, { st with mem := memUpdate st.mem junk g })
              | none => (none, st)
  | _ => (some (.typeErr 1), st)

/-- function_new: creates the ud_function, throws when the invoker
cannot be prepared, then deduplicates through the cache keyed on the
native entry address (this one, unlike struct_new, does insert). -/
def function_new (st : LuaState) (fb : FunctionBlueprint) :
    Except LErr (LuaState × LuaValue) :=
  let fid := st.nextId
  let st1 : LuaState :=
    { st with uds := (fid, UD.funUd fb) :: st.uds, nextId := fid + 1 }
  if !fb.prepOk then .error (.throwErr "prep_invoker failed")
  else
    match lgi_get_cached st1 (some fb.nativeAddress) with
    | some cid => .ok (st1, LuaValue.functionRef cid)
    | none => .ok (lgi_set_cached st1 fb.nativeAddress fid, LuaValue.functionRef fid)

/-- lgi_type_new: instantiation dispatch on the descriptor kind.
Returns (state, pushed values, value written through the val pointer —
only the struct case writes val->v_pointer; the constant case shadows
the parameter with a local).  Unlisted kinds fall through the switch
with vals = 0 and no error. -/
def lgi_type_new (st : LuaState) (ii : BaseInfo) :
    Except LErr (LuaState × List LuaValue × Option GArgument) :=
  match ii with
  | .funcInfo fb =>
      match function_new st fb with
      | .error e => .error e
      | .ok (st1, v) => .ok (st1, [v], none)
  | .structInfo sb =>
      let r := struct_new st sb none true
      .ok (r.1, r.2.1, r.2.2.map (fun a => GArgument.ptr (some a)))
  | .constInfo ti cval =>
      let r := lgi_val_to_lua st ti cval
      .ok (r.1, r.2, none)
  | _ => .ok (st, [], none)

/-- The external introspection repository: namespace loading
(g_irepository_require, returning an error pair on failure), name lookup
(g_irepository_find_by_name, returning an info pointer), and pointer
dereference for the kind/metadata queries on a returned info. -/
structure Repo where
  require : String → Option (String × ℤ)
  byName : String → String → Option ℕ
  infos : ℕ → Option BaseInfo

/-- g_object_info_find_method / g_struct_info_find_method. -/
def findMethod (ms : List (String × ℕ)) (symbol : String) : Option ℕ :=
  (ms.find? (fun p => p.1 == symbol)).map (fun p => p.2)

/-- lgi.c lgi_find: requires the namespace (reporting failure through
lgi_error as false+message+code), looks the container or symbol up, and
when a container was given switches on g_base_info_get_type of the
lookup result without a NULL check — a NULL result (container name
absent) is dereferenced, modeled as LErr.ub.  A found entity is wrapped
as a GIRepository.IBaseInfo struct. -/
def lgi_find (st : LuaState) (repo : Repo) (nsp : String)
    (object : Option String) (symbol : String) :
    Except LErr (LuaState × List LuaValue) :=
  match repo.require nsp with
  | some mc => .ok (st, [LuaValue.boolean false, LuaValue.str mc.1, LuaValue.number (mc.2 : ℚ)])
  | none =>
      let info0 := repo.byName nsp (object.getD symbol)
      let step : Except LErr (Option ℕ) :=
        match object with
        | none => .ok info0
        | some _ =>
            match info0 with
            | none => .error .ub
            | some p =>
                .ok (match repo.infos p with
                     | some (.objectInfo ms) => findMethod ms symbol
                     | some (.structInfo sb) => findMethod sb.smethods symbol
                     | _ => none)
      match step with
      | .error e => .error e
      | .ok none => .ok (st, [LuaValue.boolean false, LuaValue.str "symbol not found"])
      | .ok (some p) =>
          match repo.byName "GIRepository" "IBaseInfo" with
          | none => .ok (st, [LuaValue.boolean false,
                              LuaValue.str "unable to resolve GIRepository.IBaseInfo"])
          | some bp =>
              match repo.infos bp with
              | some (.structInfo sbB) =>
                  let r := struct_new st sbB (some p) false
                  .ok (r.1, r.2.1)
              | _ => .error .ub

/-- Modelled from the spec: lgi_compound_create (referenced by
src/core.c but defined in a compound module that is not among the
provided sources).  Per spec sections 4.3 and 4.4 it returns the
canonical wrapper for the pointer, consulting the identity cache and
inserting the freshly created wrapper on a miss. -/
def lgi_compound_create (st : LuaState) (sb : StructBlueprint) (p : ℕ) :
    LuaState × LuaValue :=
  match lgi_get_cached st (some p) with
  | some wid => (st, LuaValue.structRef wid)
  | none =>
      let wid := st.nextId
      let st1 : LuaState :=
        { st with uds := (wid, UD.structUd sb (some p)) :: st.uds, nextId := wid + 1 }
      (lgi_set_cached st1 p wid, LuaValue.structRef wid)

/-- core.c lgi_find: the revised resolver.  The namespace is fixed to
GIRepository; the container lookup result is checked against NULL
before g_base_info_get_type, interfaces are searched too, and failure
raises luaL_error (a reported, pcall-recoverable Lua error). -/
def core_lgi_find (st : LuaState) (repo : Repo) (baseinfo : StructBlueprint)
    (symbol : String) (container : Option String) :
    Except LErr (LuaState × List LuaValue) :=
  let info0 := repo.byName "GIRepository" (container.getD symbol)
  let info : Option ℕ :=
    match container, info0 with
    | some _, some p =>
        (match repo.infos p with
         | some (.objectInfo ms) => findMethod ms symbol
         | some (.ifaceInfo ms) => findMethod ms symbol
         | some (.structInfo sb) => findMethod sb.smethods symbol
         | _ => none)
    | some _, none => none
    | none, _ => info0
  match info with
  | none => .error (.luaErr "unable to resolve")
  | some p =>
      let r := lgi_compound_create st baseinfo p
      .ok (r.1, [r.2])

/-- lgi.c lgi_get: instantiates the entity described by a wrapped
GIRepository.IBaseInfo struct through lgi_type_new; any other struct
yields nil.  When lgi_type_new pushes nothing, lgi_get returns zero
values. -/
def lgi_get (st : LuaState) (repo : Repo) (sid : ℕ) :
    Except LErr (LuaState × List LuaValue) :=
  match lookupUd st sid with
  | some (.structUd sb a) =>
      if sb.nsp == "GIRepository" && sb.sname == "IBaseInfo" then
        match a.bind repo.infos with
        | some ii =>
            match lgi_type_new st ii with
            | .error e => .error e
            | .ok (st1, vs, _) => .ok (st1, vs)
        | none => .error .ub
      else .ok (st, [LuaValue.nil])
  | _ => .error (.typeErr 1)

/-- One entry of the g_newa'd arginfo array.  g_newa does not zero the
allocation, so every component starts indeterminate; none models a
component that was never written. -/
structure Slot where
  arg : Option GArgument
  dir : Option GIDirection
  ti : Option TypeInfo

def Slot.empty : Slot := ⟨none, none, none⟩

/-- The contiguous call frame, indexed like the args array of
function_call: slot 0 is the ffi return slot, slots 1.. the ffi
arguments. -/
abbrev Frame := ℕ → Slot

def frSet (fr : Frame) (i : ℕ) (s : Slot) : Frame :=
  fun j => if j = i then s else fr j

/-- The input-processing loop of function_call ("Handle parameters"):
for each declared parameter at frame index ffiIdx, the arg info, type
and direction are loaded into the slot; in/inout parameters marshal the
Lua value at stack index luaIdx (advancing luaIdx by the count
consumed); out caller-allocates parameters pre-allocate target space
via lgi_type_new on the type's interface (g_type_info_get_interface on
a non-interface type yields NULL, whose g_base_info_get_type call is
undefined behavior); plain out parameters keep their indeterminate
slot. -/
def fc_inputs (stk : ℕ → LuaValue) :
    List ArgBlueprint → LuaState → ℕ → ℕ → Frame → Except LErr (LuaState × Frame)
  | [], st, _luaIdx, _ffiIdx, fr => .ok (st, fr)
  | ab :: rest, st, luaIdx, ffiIdx, fr =>
      let fr1 := frSet fr ffiIdx { fr ffiIdx with dir := some ab.adir, ti := some ab.aty }
      if ab.adir = GIDirection.dirIn ∨ ab.adir = GIDirection.dirInout then
        match lgi_val_from_lua st luaIdx (stk luaIdx) ab.aty
                (ab.aOptional || ab.aMayBeNull) with
        | .error e => .error e
        | .ok (gOpt, consumed) =>
            let fr2 :=
              match gOpt with
              | some g => frSet fr1 ffiIdx { fr1 ffiIdx with arg := some g }
              | none => fr1
            fc_inputs stk rest st (luaIdx + consumed) (ffiIdx + 1) fr2
      else if ab.aCallerAllocates then
        match ab.aty with
        | .iface ii =>
            match lgi_type_new st ii with
            | .error e => .error e
            | .ok (st2, _vals, wOpt) =>
                let fr2 :=
                  match wOpt with
                  | some g => frSet fr1 ffiIdx { fr1 ffiIdx with arg := some g }
                  | none => fr1
                fc_inputs stk rest st2 luaIdx (ffiIdx + 1) fr2
        | .plain _ => .error .ub
      else fc_inputs stk rest st luaIdx (ffiIdx + 1) fr1

/-- The frame construction of function_call up to the native call:
lua_argi starts at 2 (the function object itself is at stack index 1);
when the function is a method and not a constructor the receiver stack
index is skipped and frame slot 1 receives a NULL pointer. -/
def fc_build (st : LuaState) (fb : FunctionBlueprint) (stk : ℕ → LuaValue) :
    Except LErr (LuaState × Frame) :=
  let fr0 : Frame := fun _ => Slot.empty
  if fb.isMethod && !fb.isConstructor then
    fc_inputs stk fb.fargs st 3 2
      (frSet fr0 1 { Slot.empty with arg := some (GArgument.ptr none) })
  else fc_inputs stk fb.fargs st 2 1 fr0

/-- The output-processing loop of function_call exactly as written: the
frame index restarts at 0 (not 1 + has_self) and runs for argc
iterations, pushing the slot value whenever the slot's direction is out
or inout.  An indeterminate (never written) direction or type is
resolved as not-out / void, one resolution of the uninitialized read
the source performs. -/
def fc_outputs (fr : Frame) : ℕ → ℕ → LuaState → LuaState × List LuaValue
  | _i, 0, st => (st, [])
  | i, n + 1, st =>
      if (fr i).dir = some GIDirection.dirOut ∨ (fr i).dir = some GIDirection.dirInout then
        let r := lgi_val_to_lua st ((fr i).ti.getD (TypeInfo.plain GITypeTag.void))
                   ((fr i).arg.getD (GArgument.int 0))
        let rest := fc_outputs fr (i + 1) n r.1
        (rest.1, r.2 ++ rest.2)
      else fc_outputs fr (i + 1) n st

/-- The behavior of the external native function under ffi_call: from
the frame's argument cells it produces the return value (written into
slot 0), the cells it writes through its out-parameter pointers, and
the GError it stores through the error slot (delivered only when the
function's metadata has the throws flag, because only then is the error
slot wired to the local error-capture location). -/
abbrev NativeBehavior :=
  (ℕ → Option GArgument) → GArgument × (ℕ → Option GArgument) × Option (String × ℤ)

/-- function_call: builds the frame, performs the (abstracted) native
call, short-circuits through lgi_error when the error channel was
populated, and otherwise marshals the return value followed by the
output loop above. -/
def function_call (st : LuaState) (fb : FunctionBlueprint) (stk : ℕ → LuaValue)
    (behavior : NativeBehavior) : Except LErr (LuaState × List LuaValue) :=
  match fc_build st fb stk with
  | .error e => .error e
  | .ok (st1, fr) =>
      let b := behavior (fun i => (fr i).arg)
      match (if fb.fthrows then b.2.2 else none) with
      | some mc =>
          .ok (st1, [LuaValue.boolean false, LuaValue.str mc.1, LuaValue.number (mc.2 : ℚ)])
      | none =>
          let frc : Frame := fun i =>
            if i = 0 then { fr 0 with arg := some b.1, ti := some fb.fret }
            else
              match b.2.1 i with
              | some g => { fr i with arg := some g }
              | none => fr i
          let rv := lgi_val_to_lua st1 fb.fret ((frc 0).arg.getD (GArgument.int 0))
          let outs := fc_outputs frc 0 fb.fargs.length rv.1
          .ok (outs.1, rv.2 ++ outs.2)

/-- Collapses a run result to the raised error (if any) and the pushed
values, dropping the state so the summary is decidable. -/
def runSummary : Except LErr (LuaState × List LuaValue) → Option LErr × List LuaValue
  | .error e => (some e, [])
  | .ok (_, vs) => (none, vs)

/-- Same collapse for lgi_type_new results. -/
def tnSummary : Except LErr (LuaState × List LuaValue × Option GArgument) →
    Option LErr × List LuaValue × Option GArgument
  | .error e => (some e, [], none)
  | .ok (_, vs, w) => (none, vs, w)

/-- An initial engine state: empty cache and heap, zeroed memory. -/
def st0 : LuaState := ⟨[], [], 0, 1000, fun _ => GArgument.int 0⟩

/-- An empty Lua argument stack. -/
def stkNil : ℕ → LuaValue := fun _ => LuaValue.nil

/-- The struct Point {x : int32 rw at 0, y : int32 rw at 4}. -/
def pointBP : StructBlueprint :=
  .mk "Test" "Point" 8
    [.mk "x" true true 0 (.plain .int32), .mk "y" true true 4 (.plain .int32)] []

/-- A function with an int32 return and a single out int32 parameter
(not caller-allocates), no receiver, no error channel. -/
def fb1 : FunctionBlueprint :=
  .mk false false false [.mk GIDirection.dirOut false false false (.plain .int32)]
    (.plain .int32) 50 true

/-- A native behavior for fb1: returns 7 and writes 42 through the out
parameter at frame slot 1. -/
def behavior1 : NativeBehavior :=
  fun _ => (GArgument.int 7, fun i => if i = 1 then some (GArgument.int 42) else none, none)

/-- C1: the spec requires the call result to be the marshaled return
value followed by every out/inout parameter in declaration order, here
(7, 42).  The output loop of function_call restarts its frame index at
0 instead of 1 + has_self, so it inspects the return slot's
never-initialized direction and stops before the last parameter's slot:
the out value 42 is never marshaled and the call returns only (7). -/
theorem claim1_off_by_one :
    runSummary (function_call st0 fb1 stkNil behavior1)
      = (none, [LuaValue.number 7]) ∧
    [LuaValue.number 7] ≠ [LuaValue.number 7, LuaValue.number 42] := by
  decide

/-- C2: marshaling the same non-null struct address twice while the
first wrapper is live.  struct_new consults the identity cache but
never inserts into it (lgi_set_cached is only called by function_new),
so the second marshal misses and a second live wrapper is created: the
two calls return distinct wrappers 0 and 1, both present in the heap,
and the cache is still empty. -/
theorem claim2_duplicate_wrappers :
    (struct_new st0 pointBP (some 500) false).2.1 = [LuaValue.structRef 0] ∧
    (struct_new (struct_new st0 pointBP (some 500) false).1 pointBP (some 500) false).2.1
      = [LuaValue.structRef 1] ∧
    (struct_new (struct_new st0 pointBP (some 500) false).1 pointBP (some 500) false).1.cache
      = [] ∧
    (lookupUd ((struct_new (struct_new st0 pointBP (some 500) false).1 pointBP
        (some 500) false).1) 0).isSome = true ∧
    (lookupUd ((struct_new (struct_new st0 pointBP (some 500) false).1 pointBP
        (some 500) false).1) 1).isSome = true := by
  decide

/-- Collapses a lgi_val_from_lua result to a decidable summary. -/
def fromSummary : Except LErr (Option GArgument × ℕ) →
    Option LErr × Option GArgument × ℕ
  | .error e => (some e, none, 0)
  | .ok p => (none, p)

/-- C3: round-tripping the dynamic value 2.5 through the FLOAT tag.
from_dynamic converts FLOAT input through luaL_checkinteger (storing
2.0) and to_dynamic pushes the float member through lua_pushinteger, so
the round trip yields 2, not 2.5 — the integer-checking float path the
spec itself flags as a latent defect. -/
theorem claim3_float_trunc :
    fromSummary (lgi_val_from_lua st0 2 (LuaValue.number (mkRat 5 2))
        (TypeInfo.plain GITypeTag.float) false)
      = (none, some (GArgument.flt 2), 1) ∧
    (lgi_val_to_lua st0 (TypeInfo.plain GITypeTag.float) (GArgument.flt 2)).2
      = [LuaValue.number 2] ∧
    (mkRat 5 2) ≠ (2 : ℚ) := by
  decide

/-- The type tags neither direction of the Value Marshaler handles. -/
def unhandledTag : GITypeTag → Bool
  | .void | .timeT | .array | .glist | .gslist | .ghash | .gerror => true
  | _ => false

/-- C4 counterexample: at the unhandled ARRAY tag, to_dynamic pushes
nothing and returns normally (it has no error channel at all), and
from_dynamic returns ok with zero values consumed — there is no
UnsupportedType hard error, contradicting the claim. -/
theorem claim4_counterexample :
    lgi_val_to_lua st0 (TypeInfo.plain GITypeTag.array) (GArgument.ptr none)
      = (st0, []) ∧
    lgi_val_from_lua st0 2 LuaValue.nil (TypeInfo.plain GITypeTag.array) false
      = .ok (none, 0) := by
  exact ⟨rfl, rfl⟩

/-- C4 amended: for every tag the marshaler does not handle, both
directions are a silent skip — to_dynamic pushes zero values and
from_dynamic consumes zero values, each returning without error, and
the surrounding operation continues. -/
theorem claim4_silent_skip (t : GITypeTag) (st : LuaState) (g : GArgument)
    (idx : ℕ) (v : LuaValue) (opt : Bool) (h : unhandledTag t = true) :
    lgi_val_to_lua st (TypeInfo.plain t) g = (st, []) ∧
    lgi_val_from_lua st idx v (TypeInfo.plain t) opt = .ok (none, 0) := by
  cases t <;> first
    | exact ⟨rfl, rfl⟩
    | exact absurd h (by decide)

/-- C4 witness: the amended statement at the GLIST tag. -/
theorem claim4_witness :
    lgi_val_to_lua st0 (TypeInfo.plain GITypeTag.glist) (GArgument.int 3)
      = (st0, []) ∧
    lgi_val_from_lua st0 4 (LuaValue.boolean true) (TypeInfo.plain GITypeTag.glist) true
      = .ok (none, 0) :=
  claim4_silent_skip GITypeTag.glist st0 (GArgument.int 3) 4 (LuaValue.boolean true) true rfl

/-- The state for the field-access scenarios: one Point wrapper at
native address 100 whose x field bytes hold 5. -/
def stC6 : LuaState :=
  ⟨[], [(0, UD.structUd pointBP (some 100))], 1, 1000,
   fun a => if a = 100 then GArgument.int 5 else GArgument.int 0⟩

/-- C6: get_field should marshal the bytes at address+offset (5 for x),
and set_field 5 then get_field should return 5.  struct_load_field
assigns the computed member address only to its local copy of the val
parameter (the * is missing), so struct_index and struct_newindex
marshal through an uninitialized GArgument* (modeled by the junk
addresses 7 and 8): the get returns 0 although the field bytes hold 5,
and the set-then-get also returns 0, not 5. -/
theorem claim6_uninit_field_ptr :
    stC6.mem (100 + 0) = GArgument.int 5 ∧
    (struct_index stC6 0 "x" 7).1 = none ∧
    (struct_index stC6 0 "x" 7).2.2 = [LuaValue.number 0] ∧
    (struct_index (struct_newindex stC6 0 "x" (LuaValue.number 5) 7).2 0 "x" 8).2.2
      = [LuaValue.number 0] := by
  decide

/-- C5: whenever the native call populated the error channel of a
throwing function, function_call returns through lgi_error exactly the
triple (false, message, code) and performs no output marshaling: the
conclusion does not depend on the out-parameter cells the behavior
wrote, so partially written output slots are discarded. -/
theorem claim5_error_short_circuit (st st1 : LuaState) (fb : FunctionBlueprint)
    (stk : ℕ → LuaValue) (behavior : NativeBehavior) (fr : Frame)
    (m : String) (c : ℤ)
    (hthrows : fb.fthrows = true)
    (hbuild : fc_build st fb stk = .ok (st1, fr))
    (hbe : (behavior (fun i => (fr i).arg)).2.2 = some (m, c)) :
    function_call st fb stk behavior
      = .ok (st1, [LuaValue.boolean false, LuaValue.str m, LuaValue.number (c : ℚ)]) := by
  simp only [function_call, hbuild, hthrows, if_true, hbe]

/-- A throwing function with no parameters and void return. -/
def fbT : FunctionBlueprint := .mk false false true [] (.plain .void) 77 true

/-- A native behavior that writes output cells and populates the error
channel with ("boom", 3). -/
def behaviorBoom : NativeBehavior :=
  fun _ => (GArgument.int 1, fun _ => some (GArgument.int 99), some ("boom", 3))

/-- C5 witness: the short circuit at a concrete throwing call. -/
theorem claim5_witness :
    function_call st0 fbT stkNil behaviorBoom
      = .ok (st0, [LuaValue.boolean false, LuaValue.str "boom",
                   LuaValue.number ((3 : ℤ) : ℚ)]) :=
  claim5_error_short_circuit st0 st0 fbT stkNil behaviorBoom
    (fun _ => Slot.empty) "boom" 3 rfl rfl rfl

/-- C7: for a struct wrapper, a name matching no declared field makes
both get_field and set_field fail with the no-such-field error; a field
without the readable flag makes get_field fail not-readable; one
without the writable flag makes set_field fail not-writable; and in
every such failure the returned state is exactly the input state, so
the structure's bytes (st.mem) are unchanged. -/
theorem claim7_field_errors (st : LuaState) (sid : ℕ) (sb : StructBlueprint)
    (a : Option ℕ) (name : String) (v : LuaValue) (junk : ℕ)
    (hud : lookupUd st sid = some (UD.structUd sb a)) :
    (sb.fields.find? (fun f => f.fname == name) = none →
      struct_index st sid name junk = (some (LErr.noField (typeName sb) name), st, []) ∧
      struct_newindex st sid name v junk = (some (LErr.noField (typeName sb) name), st)) ∧
    (∀ fi, sb.fields.find? (fun f => f.fname == name) = some fi →
      fi.freadable = false →
      struct_index st sid name junk
        = (some (LErr.fieldPerm (typeName sb) name true), st, [])) ∧
    (∀ fi, sb.fields.find? (fun f => f.fname == name) = some fi →
      fi.fwritable = false →
      struct_newindex st sid name v junk
        = (some (LErr.fieldPerm (typeName sb) name false), st)) := by
  refine ⟨fun hnone => ⟨?_, ?_⟩, fun fi hfi hr => ?_, fun fi hfi hw => ?_⟩
  · simp [struct_index, struct_load_field, hud, hnone]
  · simp [struct_newindex, struct_load_field, hud, hnone]
  · simp [struct_index, struct_load_field, hud, hfi, hr]
  · simp [struct_newindex, struct_load_field, hud, hfi, hw]

/-- Point3 {x : int32 rw, wo : int32 write-only, ro : int32 read-only}. -/
def point3BP : StructBlueprint :=
  .mk "Test" "Point3" 12
    [.mk "x" true true 0 (.plain .int32),
     .mk "wo" false true 4 (.plain .int32),
     .mk "ro" true false 8 (.plain .int32)] []

/-- State with one Point3 wrapper at native address 200. -/
def stC7 : LuaState :=
  ⟨[], [(0, UD.structUd point3BP (some 200))], 1, 1000, fun _ => GArgument.int 0⟩

/-- C7 witness: the three failures at concrete fields of Point3, each
leaving the state untouched. -/
theorem claim7_witness :
    (struct_index stC7 0 "z" 9 = (some (LErr.noField (typeName point3BP) "z"), stC7, []) ∧
     struct_newindex stC7 0 "z" (LuaValue.number 1) 9
       = (some (LErr.noField (typeName point3BP) "z"), stC7)) ∧
    struct_index stC7 0 "wo" 9
      = (some (LErr.fieldPerm (typeName point3BP) "wo" true), stC7, []) ∧
    struct_newindex stC7 0 "ro" (LuaValue.number 1) 9
      = (some (LErr.fieldPerm (typeName point3BP) "ro" false), stC7) := by
  refine ⟨(claim7_field_errors stC7 0 point3BP (some 200) "z" (LuaValue.number 1) 9 rfl).1 rfl,
          (claim7_field_errors stC7 0 point3BP (some 200) "wo" (LuaValue.number 1) 9 rfl).2.1
            (FieldBlueprint.mk "wo" false true 4 (TypeInfo.plain GITypeTag.int32)) rfl rfl,
          (claim7_field_errors stC7 0 point3BP (some 200) "ro" (LuaValue.number 1) 9 rfl).2.2
            (FieldBlueprint.mk "ro" true false 8 (TypeInfo.plain GITypeTag.int32)) rfl rfl⟩

/-- The GIRepository.IBaseInfo struct blueprint. -/
def baseinfoBP : StructBlueprint := .mk "GIRepository" "IBaseInfo" 8 [] []

/-- A repository whose only loadable namespace is Gtk and whose only
named entity is GIRepository.IBaseInfo at info pointer 1. -/
def repoC8 : Repo :=
  { require := fun ns => if ns == "Gtk" then none else some ("namespace not found", 1),
    byName := fun ns n => if ns == "GIRepository" && n == "IBaseInfo" then some 1 else none,
    infos := fun p => if p == 1 then some (BaseInfo.structInfo baseinfoBP) else none }

/-- C8: an unknown namespace and an absent symbol are reported
recoverably (false plus message), but when the given container name
does not resolve, lgi.c's lgi_find hands the NULL lookup result to
g_base_info_get_type - undefined behavior, not a reported
ResolutionError.  core.c's revision of the same function checks for
NULL and reports through luaL_error, showing the reporting intent. -/
theorem claim8_null_container :
    runSummary (lgi_find st0 repoC8 "Nope" none "x")
      = (none, [LuaValue.boolean false, LuaValue.str "namespace not found",
                LuaValue.number 1]) ∧
    runSummary (lgi_find st0 repoC8 "Gtk" (some "Missing") "m") = (some LErr.ub, []) ∧
    runSummary (lgi_find st0 repoC8 "Gtk" none "missing")
      = (none, [LuaValue.boolean false, LuaValue.str "symbol not found"]) ∧
    runSummary (core_lgi_find st0 repoC8 baseinfoBP "m" (some "Missing"))
      = (some (LErr.luaErr "unable to resolve"), []) := by
  decide

/-- A repository holding an enum descriptor at info pointer 55. -/
def repoC9 : Repo :=
  { require := fun _ => none,
    byName := fun _ _ => none,
    infos := fun p => if p == 55 then some (BaseInfo.enumInfo GITypeTag.int32) else none }

/-- State with a GIRepository.IBaseInfo wrapper whose address is the
enum descriptor 55. -/
def stC9 : LuaState :=
  ⟨[], [(0, UD.structUd baseinfoBP (some 55))], 1, 1000, fun _ => GArgument.int 0⟩

/-- C9 counterexample: instantiating an enum descriptor - a kind that
is neither function, structure nor constant - returns ok with zero
values and no error, both through lgi_get and through lgi_type_new
directly: a silent empty result, not the error the claim requires. -/
theorem claim9_counterexample :
    runSummary (lgi_get stC9 repoC9 0) = (none, []) ∧
    tnSummary (lgi_type_new st0 (BaseInfo.enumInfo GITypeTag.int32))
      = (none, [], none) := by
  decide

/-- The state after function_new pushes the fresh ud_function. -/
def fnHeapPush (st : LuaState) (fb : FunctionBlueprint) : LuaState :=
  { st with uds := (st.nextId, UD.funUd fb) :: st.uds, nextId := st.nextId + 1 }

/-- On a function whose invoker prepares, function_new pushes exactly
one function wrapper (a cached one on an address hit, the fresh one
otherwise). -/
theorem function_new_one_ref (st : LuaState) (fb : FunctionBlueprint)
    (hprep : fb.prepOk = true) :
    ∃ st1 fid, function_new st fb = .ok (st1, LuaValue.functionRef fid) := by
  unfold function_new
  simp only [hprep, Bool.not_true, Bool.false_eq_true, if_false]
  cases hcl : lgi_get_cached (fnHeapPush st fb) (some fb.nativeAddress) with
  | some cid =>
      refine ⟨fnHeapPush st fb, cid, ?_⟩
      simp only [fnHeapPush] at hcl
      simp [fnHeapPush, hcl]
  | none =>
      refine ⟨lgi_set_cached (fnHeapPush st fb) fb.nativeAddress st.nextId, st.nextId, ?_⟩
      simp only [fnHeapPush] at hcl
      simp [fnHeapPush, hcl]

/-- C9 amended: the instantiation dispatch of lgi_type_new by
descriptor kind - a function descriptor yields one callable handle, a
structure descriptor one owned structure handle with freshly allocated
embedded storage, a constant descriptor its literal value marshaled by
lgi_val_to_lua, and every other kind (enum, object, interface, other)
yields zero values with no error raised: a silent empty result. -/
theorem claim9_dispatch (st : LuaState) (fb : FunctionBlueprint)
    (sb : StructBlueprint) (ti : TypeInfo) (cv : GArgument)
    (hprep : fb.prepOk = true) :
    (∃ st1 fid, lgi_type_new st (BaseInfo.funcInfo fb)
        = .ok (st1, [LuaValue.functionRef fid], none)) ∧
    lgi_type_new st (BaseInfo.structInfo sb)
      = .ok ({ st with uds := (st.nextId, UD.structUd sb (some st.nextAddr)) :: st.uds,
                       nextId := st.nextId + 1,
                       nextAddr := st.nextAddr + sb.size + 1 },
             [LuaValue.structRef st.nextId],
             some (GArgument.ptr (some st.nextAddr))) ∧
    lgi_type_new st (BaseInfo.constInfo ti cv)
      = .ok ((lgi_val_to_lua st ti cv).1, (lgi_val_to_lua st ti cv).2, none) ∧
    (∀ stor, lgi_type_new st (BaseInfo.enumInfo stor) = .ok (st, [], none)) ∧
    (∀ ms, lgi_type_new st (BaseInfo.objectInfo ms) = .ok (st, [], none)) ∧
    (∀ ms, lgi_type_new st (BaseInfo.ifaceInfo ms) = .ok (st, [], none)) ∧
    lgi_type_new st BaseInfo.otherInfo = .ok (st, [], none) := by
  refine ⟨?_, rfl, rfl, fun stor => rfl, fun ms => rfl, fun ms => rfl, rfl⟩
  obtain ⟨st1, fid, hfn⟩ := function_new_one_ref st fb hprep
  exact ⟨st1, fid, by simp [lgi_type_new, hfn]⟩

/-- C9 witness: the dispatch at concrete descriptors. -/
theorem claim9_witness :
    (∃ st1 fid, lgi_type_new st0 (BaseInfo.funcInfo fb1)
        = .ok (st1, [LuaValue.functionRef fid], none)) ∧
    lgi_type_new st0 (BaseInfo.structInfo pointBP)
      = .ok ({ st0 with uds := (st0.nextId, UD.structUd pointBP (some st0.nextAddr)) :: st0.uds,
                        nextId := st0.nextId + 1,
                        nextAddr := st0.nextAddr + pointBP.size + 1 },
             [LuaValue.structRef st0.nextId],
             some (GArgument.ptr (some st0.nextAddr))) ∧
    lgi_type_new st0 (BaseInfo.constInfo (TypeInfo.plain GITypeTag.int32) (GArgument.int 9))
      = .ok ((lgi_val_to_lua st0 (TypeInfo.plain GITypeTag.int32) (GArgument.int 9)).1,
             (lgi_val_to_lua st0 (TypeInfo.plain GITypeTag.int32) (GArgument.int 9)).2, none) ∧
    (∀ stor, lgi_type_new st0 (BaseInfo.enumInfo stor) = .ok (st0, [], none)) ∧
    (∀ ms, lgi_type_new st0 (BaseInfo.objectInfo ms) = .ok (st0, [], none)) ∧
    (∀ ms, lgi_type_new st0 (BaseInfo.ifaceInfo ms) = .ok (st0, [], none)) ∧
    lgi_type_new st0 BaseInfo.otherInfo = .ok (st0, [], none) :=
  claim9_dispatch st0 fb1 pointBP (TypeInfo.plain GITypeTag.int32) (GArgument.int 9) rfl

/-- The input loop only inspects stack indices at or above its current
lua index: two stacks that agree from luaIdx on produce identical
runs. -/
theorem fc_inputs_agree (stk stk' : ℕ → LuaValue) (abs : List ArgBlueprint) :
    ∀ (st : LuaState) (luaIdx ffiIdx : ℕ) (fr : Frame),
      (∀ j, luaIdx ≤ j → stk j = stk' j) →
      fc_inputs stk abs st luaIdx ffiIdx fr = fc_inputs stk' abs st luaIdx ffiIdx fr := by
  induction abs with
  | nil => intro st luaIdx ffiIdx fr _; rfl
  | cons ab rest ih =>
      intro st luaIdx ffiIdx fr h
      have hv := h luaIdx le_rfl
      simp only [fc_inputs, ← hv]
      split
      · cases hfl : lgi_val_from_lua st luaIdx (stk luaIdx) ab.aty
            (ab.aOptional || ab.aMayBeNull) with
        | error e => rfl
        | ok p =>
            cases p with
            | mk gOpt consumed =>
                cases gOpt with
                | some g =>
                    exact ih _ _ _ _ (fun j hj => h j (le_trans (Nat.le_add_right _ _) hj))
                | none =>
                    exact ih _ _ _ _ (fun j hj => h j (le_trans (Nat.le_add_right _ _) hj))
      · split
        · cases ab.aty with
          | plain t => rfl
          | iface ii =>
              dsimp only
              cases htn : lgi_type_new st ii with
              | error e => rfl
              | ok r =>
                  obtain ⟨st2, vals, wOpt⟩ := r
                  dsimp only
                  cases wOpt with
                  | some g => exact ih _ _ _ _ h
                  | none => exact ih _ _ _ _ h
        · exact ih _ _ _ _ h

/-- The input loop writes frame slots only at indices at or above its
current frame index: lower slots come through unchanged. -/
theorem fc_inputs_low (stk : ℕ → LuaValue) (abs : List ArgBlueprint) :
    ∀ (st : LuaState) (luaIdx ffiIdx : ℕ) (fr : Frame) (st' : LuaState) (fr' : Frame),
      fc_inputs stk abs st luaIdx ffiIdx fr = .ok (st', fr') →
      ∀ k, k < ffiIdx → fr' k = fr k := by
  induction abs with
  | nil =>
      intro st luaIdx ffiIdx fr st' fr' h k _
      simp only [fc_inputs] at h
      cases h
      rfl
  | cons ab rest ih =>
      intro st luaIdx ffiIdx fr st' fr' h k hk
      have hk1 : k < ffiIdx + 1 := Nat.lt_succ_of_lt hk
      have hne : k ≠ ffiIdx := Nat.ne_of_lt hk
      simp only [fc_inputs] at h
      split at h
      · cases hfl : lgi_val_from_lua st luaIdx (stk luaIdx) ab.aty
            (ab.aOptional || ab.aMayBeNull) with
        | error e => rw [hfl] at h; cases h
        | ok p =>
            rw [hfl] at h
            cases p with
            | mk gOpt consumed =>
                cases gOpt with
                | some g => rw [ih _ _ _ _ _ _ h k hk1]; simp [frSet, hne]
                | none => rw [ih _ _ _ _ _ _ h k hk1]; simp [frSet, hne]
      · split at h
        · cases hty : ab.aty with
          | plain t => rw [hty] at h; cases h
          | iface ii =>
              rw [hty] at h
              dsimp only at h
              cases htn : lgi_type_new st ii with
              | error e => rw [htn] at h; cases h
              | ok r =>
                  rw [htn] at h
                  obtain ⟨st2, vals, wOpt⟩ := r
                  dsimp only at h
                  cases wOpt with
                  | some g => rw [ih _ _ _ _ _ _ h k hk1]; simp [frSet, hne]
                  | none => rw [ih _ _ _ _ _ _ h k hk1]; simp [frSet, hne]
        · rw [ih _ _ _ _ _ _ h k hk1]; simp [frSet, hne]

/-- C10: for a method that is not a constructor, the receiver slot
(frame slot 1) always holds the NULL pointer after the input phase, and
the caller-supplied receiver argument (stack index 2) is skipped: the
whole call does not depend on it. -/
theorem claim10_receiver_null (st : LuaState) (fb : FunctionBlueprint)
    (stk stk' : ℕ → LuaValue) (behavior : NativeBehavior)
    (hm : fb.isMethod = true) (hc : fb.isConstructor = false)
    (hagree : ∀ i, i ≠ 2 → stk i = stk' i) :
    function_call st fb stk behavior = function_call st fb stk' behavior ∧
    (∀ st1 fr, fc_build st fb stk = .ok (st1, fr) →
      (fr 1).arg = some (GArgument.ptr none)) := by
  have hsame : fc_build st fb stk = fc_build st fb stk' := by
    simp only [fc_build, hm, hc, Bool.not_false, Bool.and_self, if_true]
    exact fc_inputs_agree stk stk' fb.fargs st 3 2 _
      (fun j hj => hagree j (by omega))
  constructor
  · simp only [function_call, hsame]
  · intro st1 fr hb
    simp only [fc_build, hm, hc, Bool.not_false, Bool.and_self, if_true] at hb
    have h1 := fc_inputs_low stk fb.fargs st 3 2 _ st1 fr hb 1 (by omega)
    rw [h1]
    simp [frSet, Slot.empty]

/-- A method (non-constructor) with one optional in int32 parameter. -/
def fbM : FunctionBlueprint :=
  .mk true false false [.mk GIDirection.dirIn true false false (.plain .int32)]
    (.plain .void) 60 true

/-- Two stacks differing exactly at the receiver index 2. -/
def stkA : ℕ → LuaValue := fun i => if i = 2 then LuaValue.number 99 else LuaValue.nil

def stkB : ℕ → LuaValue := fun i => if i = 2 then LuaValue.str "receiver" else LuaValue.nil

def behaviorM : NativeBehavior := fun _ => (GArgument.int 0, fun _ => none, none)

/-- C10 witness: the receiver independence and NULL receiver slot at a
concrete method call. -/
theorem claim10_witness :
    function_call st0 fbM stkA behaviorM = function_call st0 fbM stkB behaviorM ∧
    (∀ st1 fr, fc_build st0 fbM stkA = .ok (st1, fr) →
      (fr 1).arg = some (GArgument.ptr none)) :=
  claim10_receiver_null st0 fbM stkA stkB behaviorM rfl rfl
    (by
      intro i hi
      simp [stkA, stkB, hi])
